import Mathlib

/-
  Verification of the predictive-walking trajectory-optimization code
  (predictsim_mtp): shallow embedding of the initial-guess generator
  (src/guesses.py), of the guess-within-bounds assertion block, the
  post-solve sanity checks, the cost decomposition and the gait-cycle
  reconstruction of src/main.py.  Machine integers and floats of the
  source are modelled over the rationals.
-/

/-! ### Generic list helpers used by the embedding -/

/-- np.linspace(a, b, n): n evenly spaced rationals from a to b inclusive,
entry i equal to a + i * (b - a) / (n - 1). -/
def linspaceQ (a b : ℚ) (n : ℕ) : List ℚ :=
  (List.range n).map (fun (i : ℕ) => a + (i : ℚ) * ((b - a) / ((n - 1 : ℕ) : ℚ)))

/-- np.argmax over a boolean vector: index of the first True entry,
and 0 when every entry is False. -/
def npArgmaxBool : List Bool → ℕ
  | [] => 0
  | b :: l => if b then 0 else if l.any (fun x => x) then npArgmaxBool l + 1 else 0

/-! ### src/guesses.py, getGuessFinalTime (both guess classes)

    allSpeeds = np.linspace(0.73, 2.73, 21)
    allFinalTimes = np.linspace(0.70, 0.35, 21)
    idxTargetSpeed = np.argmax(allSpeeds >= self.targetSpeed)
    return allFinalTimes[idxTargetSpeed]
-/

namespace quasiRandomGuess

def allSpeeds : List ℚ := linspaceQ (73/100) (273/100) 21

def allFinalTimes : List ℚ := linspaceQ (70/100) (35/100) 21

def getGuessFinalTime (targetSpeed : ℚ) : ℚ :=
  allFinalTimes.getD (npArgmaxBool (allSpeeds.map (fun s => decide (s ≥ targetSpeed)))) 0

end quasiRandomGuess

namespace dataDrivenGuess

/-- dataDrivenGuess.getGuessFinalTime has the same body as the
quasi-random variant (src/guesses.py lines 219-225). -/
def getGuessFinalTime (targetSpeed : ℚ) : ℚ :=
  quasiRandomGuess.allFinalTimes.getD
    (npArgmaxBool (quasiRandomGuess.allSpeeds.map (fun s => decide (s ≥ targetSpeed)))) 0

end dataDrivenGuess

/-- Linear interpolation in the speed-to-final-time table, written from the
words of the specification (final time picked by linear interpolation from a
lookup table keyed by target speed): on the bracketing interval
[speeds_i, speeds_goal] the value is the affine blend of the two table times. -/
def linearInterpTable (speeds times : List ℚ) (i : ℕ) (v : ℚ) : ℚ :=
  let s0 := speeds.getD i 0
  let s1 := speeds.getD (i+1) 0
  let f0 := times.getD i 0
  let f1 := times.getD (i+1) 0
  f0 + (v - s0) * (f1 - f0) / (s1 - s0)

/-! ### Joint-name constants shared by the embedding -/

def pelvisTx : String := "pelvis_tx"

def pelvisTy : String := "pelvis_ty"

def coldStartName : String := "coldStart"

/-- Python slice s[-2:] of a joint name, as a character list. -/
def pyLastTwo (s : String) : List Char := (s.data.reverse.take 2).reverse

/-- Python slice s[:-1] of a joint name, as a character list. -/
def pyDropLast (s : String) : List Char := s.data.dropLast

/-! ### src/guesses.py, quasiRandomGuess.getGuessPosition (lines 23-42)

    g = [0] * (N + 1)
    g_pelvis_tx = np.linspace(0, guessFinalTime * targetSpeed, N)
    g_pelvis_tx = np.append(g_pelvis_tx, g_pelvis_tx[-1] +
                            (g_pelvis_tx[-1] - g_pelvis_tx[-2]))
    g_pelvis_ty = [0.9385] * (N + 1)
    column for pelvis_tx is g_pelvis_tx / scaling[pelvis_tx], for
    pelvis_ty g_pelvis_ty / scaling[pelvis_ty], otherwise g / scaling.
-/

namespace quasiRandomGuess

def gPelvisTxList (N : ℕ) (targetSpeed guessFinalTime : ℚ) : List ℚ :=
  linspaceQ 0 (guessFinalTime * targetSpeed) N ++
  [(linspaceQ 0 (guessFinalTime * targetSpeed) N).getD (N-1) 0 +
   ((linspaceQ 0 (guessFinalTime * targetSpeed) N).getD (N-1) 0 -
    (linspaceQ 0 (guessFinalTime * targetSpeed) N).getD (N-2) 0)]

/-- Entry of the guessed scaled position table at column joint, row j
(j ranges over the N+1 mesh points). -/
def getGuessPosition (N : ℕ) (targetSpeed guessFinalTime : ℚ)
    (scaling : String → ℚ) (joint : String) (j : ℕ) : ℚ :=
  if joint = pelvisTx then
    (gPelvisTxList N targetSpeed guessFinalTime).getD j 0 / scaling joint
  else if joint = pelvisTy then (9385/10000 : ℚ) / scaling joint
  else 0 / scaling joint

end quasiRandomGuess

/-! ### src/guesses.py, collocation-point guesses (both classes)

    Every getGuess*Col method runs the same double loop,
    for k in range(N): for c in range(d): append(mesh.iloc[k]),
    over its own mesh-point table.  A row of the pandas table is kept
    abstract as a value of an arbitrary type.
-/

def appendColRows {α : Type} (N d : ℕ) (mesh : List α) (dflt : α) : List α :=
  (List.range N).flatMap (fun k => List.replicate d (mesh.getD k dflt))

namespace quasiRandomGuess

def getGuessActivationCol {α : Type} (N d : ℕ) (guessActivation : List α) (dflt : α) : List α :=
  appendColRows N d guessActivation dflt

def getGuessForceCol {α : Type} (N d : ℕ) (guessForce : List α) (dflt : α) : List α :=
  appendColRows N d guessForce dflt

def getGuessForceDerivativeCol {α : Type} (N d : ℕ) (guessForceDerivative : List α) (dflt : α) : List α :=
  appendColRows N d guessForceDerivative dflt

def getGuessTorqueActuatorActivationCol {α : Type} (N d : ℕ) (guessTorqueActuatorActivation : List α) (dflt : α) : List α :=
  appendColRows N d guessTorqueActuatorActivation dflt

def getGuessPositionCol {α : Type} (N d : ℕ) (guessPosition : List α) (dflt : α) : List α :=
  appendColRows N d guessPosition dflt

def getGuessVelocityCol {α : Type} (N d : ℕ) (guessVelocity : List α) (dflt : α) : List α :=
  appendColRows N d guessVelocity dflt

def getGuessAccelerationCol {α : Type} (N d : ℕ) (guessAcceleration : List α) (dflt : α) : List α :=
  appendColRows N d guessAcceleration dflt

end quasiRandomGuess

namespace dataDrivenGuess

def getGuessActivationCol {α : Type} (N d : ℕ) (guessActivation : List α) (dflt : α) : List α :=
  appendColRows N d guessActivation dflt

def getGuessForceCol {α : Type} (N d : ℕ) (guessForce : List α) (dflt : α) : List α :=
  appendColRows N d guessForce dflt

def getGuessForceDerivativeCol {α : Type} (N d : ℕ) (guessForceDerivative : List α) (dflt : α) : List α :=
  appendColRows N d guessForceDerivative dflt

def getGuessTorqueActuatorActivationCol {α : Type} (N d : ℕ) (guessTorqueActuatorActivation : List α) (dflt : α) : List α :=
  appendColRows N d guessTorqueActuatorActivation dflt

def getGuessPositionCol {α : Type} (N d : ℕ) (guessPosition : List α) (dflt : α) : List α :=
  appendColRows N d guessPosition dflt

def getGuessVelocityCol {α : Type} (N d : ℕ) (guessVelocity : List α) (dflt : α) : List α :=
  appendColRows N d guessVelocity dflt

def getGuessAccelerationCol {α : Type} (N d : ℕ) (guessAcceleration : List α) (dflt : α) : List α :=
  appendColRows N d guessAcceleration dflt

end dataDrivenGuess

/-! ### src/guesses.py, dataDrivenGuess.getGuessPosition (lines 228-267)

    The spline of the reference motion divided by the scaling is kept
    abstract as the table base : joint name -> row -> value (rows
    0..N-1).  The method then appends mesh row N: for a joint of
    periodicQsJointsA ending in _r the row-0 value of the name with the
    trailing r replaced by l (joint[:-1] + l), symmetrically for _l,
    else its own row-0 value; for a joint of periodicOppositeJoints the
    negated row-0 value (other joints keep the NaN written by
    loc[N] = NaN, modelled as 0 and never referenced by the claims);
    then row N of pelvis_tx is overwritten with the constant-velocity
    extrapolation from rows N-1 and N-2; finally (startNotAdjusted = 0,
    the call in src/main.py) the whole pelvis_tx column is shifted by
    its row-0 value.
-/

namespace dataDrivenGuess

def periodicRowN (perQsA perOpp : List String) (base : String → ℕ → ℚ)
    (joint : String) : ℚ :=
  if perQsA.contains joint then
    (if pyLastTwo joint = ['_', 'r'] then base (String.mk (pyDropLast joint ++ ['l'])) 0
     else if pyLastTwo joint = ['_', 'l'] then base (String.mk (pyDropLast joint ++ ['r'])) 0
     else base joint 0)
  else if perOpp.contains joint then -(base joint 0)
  else 0

def getGuessPosition (N : ℕ) (perQsA perOpp : List String)
    (base : String → ℕ → ℚ) (joint : String) (k : ℕ) : ℚ :=
  let beforeShift : String → ℕ → ℚ := fun jt k' =>
    if k' = N then
      (if jt = pelvisTx then
        base pelvisTx (N-1) + (base pelvisTx (N-1) - base pelvisTx (N-2))
      else periodicRowN perQsA perOpp base jt)
    else base jt k'
  if joint = pelvisTx then beforeShift joint k - beforeShift pelvisTx 0
  else beforeShift joint k

end dataDrivenGuess

/-! ### src/main.py: model joint lists (lines 239-366, withMTP = True) -/

namespace mainModel

def joints : List String :=
  ["pelvis_tilt", "pelvis_list", "pelvis_rotation",
   "pelvis_tx", "pelvis_ty", "pelvis_tz",
   "hip_flexion_l", "hip_adduction_l", "hip_rotation_l",
   "hip_flexion_r", "hip_adduction_r", "hip_rotation_r",
   "knee_angle_l", "knee_angle_r",
   "ankle_angle_l", "ankle_angle_r",
   "subtalar_angle_l", "subtalar_angle_r",
   "mtp_angle_l", "mtp_angle_r",
   "lumbar_extension", "lumbar_bending", "lumbar_rotation",
   "arm_flex_l", "arm_add_l", "arm_rot_l",
   "arm_flex_r", "arm_add_r", "arm_rot_r",
   "elbow_flex_l", "elbow_flex_r"]

def rotationalJoints : List String :=
  ((joints.erase ("pelvis_tx")).erase ("pelvis_ty")).erase ("pelvis_tz")

def periodicQsJointsA : List String :=
  ["pelvis_tilt", "pelvis_ty",
   "hip_flexion_l", "hip_adduction_l", "hip_rotation_l",
   "hip_flexion_r", "hip_adduction_r", "hip_rotation_r",
   "knee_angle_l", "knee_angle_r",
   "ankle_angle_l", "ankle_angle_r",
   "subtalar_angle_l", "subtalar_angle_r",
   "mtp_angle_l", "mtp_angle_r",
   "lumbar_extension",
   "arm_flex_l", "arm_add_l", "arm_rot_l",
   "arm_flex_r", "arm_add_r", "arm_rot_r",
   "elbow_flex_l", "elbow_flex_r"]

def periodicQsJointsB : List String :=
  ["pelvis_tilt", "pelvis_ty",
   "hip_flexion_r", "hip_adduction_r", "hip_rotation_r",
   "hip_flexion_l", "hip_adduction_l", "hip_rotation_l",
   "knee_angle_r", "knee_angle_l",
   "ankle_angle_r", "ankle_angle_l",
   "subtalar_angle_r", "subtalar_angle_l",
   "mtp_angle_r", "mtp_angle_l",
   "lumbar_extension",
   "arm_flex_r", "arm_add_r", "arm_rot_r",
   "arm_flex_l", "arm_add_l", "arm_rot_l",
   "elbow_flex_r", "elbow_flex_l"]

def periodicOppositeJoints : List String :=
  ["pelvis_list", "pelvis_rotation", "pelvis_tz",
   "lumbar_bending", "lumbar_rotation"]

/-- Modelled from the spec: utilities.getJointIndices is not under src/.
Per the data-model section (bijective name-to-index registry built from
the ordered joint list) it maps every selected name to its position in
the ordered list. -/
def getJointIndices (joints_ : List String) (sel : List String) : List ℕ :=
  sel.map (fun j => joints_.indexOf j)

def idxPerQsJointsA : List ℕ := getJointIndices joints periodicQsJointsA

def idxPerQsJointsB : List ℕ := getJointIndices joints periodicQsJointsB

def idxPerOppJoints : List ℕ := getJointIndices joints periodicOppositeJoints

def idxRotJoints : List ℕ := getJointIndices joints rotationalJoints

def txIdx : ℕ := joints.indexOf pelvisTx

/-- For a row index of idxPerQsJointsA, the row index of idxPerQsJointsB
at the same list position (the left/right partner used by the numpy
fancy-index assignment Qs_GC[idxPerQsJointsA, c] = Qs_opt_nsc[idxPerQsJointsB, c2]). -/
def partnerAB (j : ℕ) : ℕ :=
  match (idxPerQsJointsA.zip idxPerQsJointsB).find? (fun p => p.1 == j) with
  | some p => p.2
  | none => j

/-! #### src/main.py, gait-cycle reconstruction of the joint positions
    (lines 1360-1389).  Q is the unscaled half-cycle solution
    Qs_opt_nsc (joint row, mesh column 0..N), i is idxIC_s, the
    heel-strike mesh index.  The table Qs_GC (31 rows, 2N columns,
    initialized with np.zeros) is built by the sequence of masked
    assignments below; every right-hand side reads Q, so each
    assignment is modelled as one function layer, later layers
    overriding earlier ones exactly as the numpy writes do. -/

/-- Qs_GC[:, :N-i] = Q[:, i:-1] over the zero-initialized table. -/
def qsGC_seg1 (Q : ℕ → ℕ → ℚ) (N i : ℕ) (j t : ℕ) : ℚ :=
  if t < N - i then Q j (i + t) else 0

/-- Qs_GC[idxPerQsJointsA, N-i:2N-i] = Q[idxPerQsJointsB, :-1]. -/
def qsGC_seg2A (Q : ℕ → ℕ → ℚ) (N i : ℕ) (j t : ℕ) : ℚ :=
  if (N - i ≤ t ∧ t < 2*N - i) ∧ idxPerQsJointsA.contains j then
    Q (partnerAB j) (t - (N - i))
  else qsGC_seg1 Q N i j t

/-- Qs_GC[idxPerOppJoints, N-i:2N-i] = -Q[idxPerOppJoints, :-1]. -/
def qsGC_seg2Opp (Q : ℕ → ℕ → ℚ) (N i : ℕ) (j t : ℕ) : ℚ :=
  if (N - i ≤ t ∧ t < 2*N - i) ∧ idxPerOppJoints.contains j then
    -(Q j (t - (N - i)))
  else qsGC_seg2A Q N i j t

/-- Qs_GC[txIdx, N-i:2N-i] = Q[txIdx, :-1] + Q[txIdx, -1]. -/
def qsGC_seg2Tx (Q : ℕ → ℕ → ℚ) (N i : ℕ) (j t : ℕ) : ℚ :=
  if (N - i ≤ t ∧ t < 2*N - i) ∧ j = txIdx then
    Q txIdx (t - (N - i)) + Q txIdx N
  else qsGC_seg2Opp Q N i j t

/-- Qs_GC[:, 2N-i:2N] = Q[:, :i]. -/
def qsGC_seg3 (Q : ℕ → ℕ → ℚ) (N i : ℕ) (j t : ℕ) : ℚ :=
  if 2*N - i ≤ t ∧ t < 2*N then Q j (t - (2*N - i))
  else qsGC_seg2Tx Q N i j t

/-- Qs_GC[txIdx, 2N-i:2N] = Q[txIdx, :i] + 2 * Q[txIdx, -1]. -/
def qsGC_seg3Tx (Q : ℕ → ℕ → ℚ) (N i : ℕ) (j t : ℕ) : ℚ :=
  if (2*N - i ≤ t ∧ t < 2*N) ∧ j = txIdx then
    Q txIdx (t - (2*N - i)) + 2 * Q txIdx N
  else qsGC_seg3 Q N i j t

/-- If the left leg initiates contact, Qs_GC[idxPerQsJointsA, :] =
Qs_GC[idxPerQsJointsB, :] (the right-hand side is read in full before
the write) followed by Qs_GC[idxPerOppJoints, :] = -Qs_GC[idxPerOppJoints, :]. -/
def qsGC_legAdjusted (Q : ℕ → ℕ → ℚ) (N i : ℕ) (legICLeft : Bool) (j t : ℕ) : ℚ :=
  if legICLeft then
    (let permuted : ℕ → ℕ → ℚ := fun j' t' =>
      if idxPerQsJointsA.contains j' then qsGC_seg3Tx Q N i (partnerAB j') t'
      else qsGC_seg3Tx Q N i j' t'
     if idxPerOppJoints.contains j then -(permuted j t) else permuted j t)
  else qsGC_seg3Tx Q N i j t

/-- Final reconstruction step before the degree conversion:
Qs_GC[txIdx, :] -= Qs_GC[txIdx, 0]. -/
def Qs_GC (Q : ℕ → ℕ → ℚ) (N i : ℕ) (legICLeft : Bool) (j t : ℕ) : ℚ :=
  if j = txIdx then
    qsGC_legAdjusted Q N i legICLeft j t - qsGC_legAdjusted Q N i legICLeft txIdx 0
  else qsGC_legAdjusted Q N i legICLeft j t

/-- Written from the words of claim C5: the 2N-sample cycle is the
concatenation of three segments of the half-cycle solution - samples
i..N-1 unchanged, then the first N samples with the A-to-B permutation
applied, opposite joints negated and pelvis_tx offset by the
final-sample value, then samples 0..i-1 with pelvis_tx offset by twice
the final-sample value. -/
def qsGC_claimSegments (Q : ℕ → ℕ → ℚ) (N i : ℕ) (j t : ℕ) : ℚ :=
  if t < N - i then Q j (i + t)
  else if t < 2*N - i then
    (if j = txIdx then Q txIdx (t - (N - i)) + Q txIdx N
     else if idxPerOppJoints.contains j then -(Q j (t - (N - i)))
     else if idxPerQsJointsA.contains j then Q (partnerAB j) (t - (N - i))
     else 0)
  else
    (if j = txIdx then Q txIdx (t - (2*N - i)) + 2 * Q txIdx N
     else Q j (t - (2*N - i)))

/-- Written from the words of claim C5: if the left leg initiates
contact, the left/right permutation and opposite-joint negation are
applied once more to the whole cycle. -/
def qsGC_claim (Q : ℕ → ℕ → ℚ) (N i : ℕ) (legICLeft : Bool) (j t : ℕ) : ℚ :=
  if legICLeft then
    (let permuted : ℕ → ℕ → ℚ := fun j' t' =>
      if idxPerQsJointsA.contains j' then qsGC_claimSegments Q N i (partnerAB j') t'
      else qsGC_claimSegments Q N i j' t'
     if idxPerOppJoints.contains j then -(permuted j t) else permuted j t)
  else qsGC_claimSegments Q N i j t

end mainModel

/-! ### src/main.py, guess-within-bounds assertion block (lines 718-850)

    Before the solver is created, one assert pair per decision-variable
    family compares the flattened guess against the flattened bounds.
    The two joint-position pairs (mesh and collocation points, lines
    766-779) are guarded by the test
    if not guessType == coldStart.  guessWithinBoundsChecks is true
    exactly when every assert that runs passes, that is when the solver
    is reached. -/

structure GuessBoundsData where
  lbFinalTime : ℚ
  ubFinalTime : ℚ
  gFinalTime : ℚ
  (lbAk gAk ubAk : List ℚ)
  (lbAj gAj ubAj : List ℚ)
  (lbFk gFk ubFk : List ℚ)
  (lbFj gFj ubFj : List ℚ)
  (lbQsk gQsk ubQsk : List ℚ)
  (lbQsj gQsj ubQsj : List ℚ)
  (lbQdsk gQdsk ubQdsk : List ℚ)
  (lbQdsj gQdsj ubQdsj : List ℚ)
  (lbArmAk gArmAk ubArmAk : List ℚ)
  (lbArmAj gArmAj ubArmAj : List ℚ)
  (lbADtk gADtk ubADtk : List ℚ)
  (lbArmEk gArmEk ubArmEk : List ℚ)
  (lbFDtj gFDtj ubFDtj : List ℚ)
  (lbQddsj gQddsj ubQddsj : List ℚ)
  guessType : String

/-- np.all(lb <= g) on same-shape arrays. -/
def npAllLe (lb g : List ℚ) : Bool := (lb.zip g).all (fun p => decide (p.1 ≤ p.2))

/-- np.all(ub >= g) on same-shape arrays. -/
def npAllGe (ub g : List ℚ) : Bool := (ub.zip g).all (fun p => decide (p.1 ≥ p.2))

def guessWithinBoundsChecks (s : GuessBoundsData) : Bool :=
  decide (s.lbFinalTime ≤ s.gFinalTime) && decide (s.ubFinalTime ≥ s.gFinalTime) &&
  npAllLe s.lbAk s.gAk && npAllGe s.ubAk s.gAk &&
  npAllLe s.lbAj s.gAj && npAllGe s.ubAj s.gAj &&
  npAllLe s.lbFk s.gFk && npAllGe s.ubFk s.gFk &&
  npAllLe s.lbFj s.gFj && npAllGe s.ubFj s.gFj &&
  (decide (s.guessType = coldStartName) ||
    (npAllLe s.lbQsk s.gQsk && npAllGe s.ubQsk s.gQsk)) &&
  (decide (s.guessType = coldStartName) ||
    (npAllLe s.lbQsj s.gQsj && npAllGe s.ubQsj s.gQsj)) &&
  npAllLe s.lbQdsk s.gQdsk && npAllGe s.ubQdsk s.gQdsk &&
  npAllLe s.lbQdsj s.gQdsj && npAllGe s.ubQdsj s.gQdsj &&
  npAllLe s.lbArmAk s.gArmAk && npAllGe s.ubArmAk s.gArmAk &&
  npAllLe s.lbArmAj s.gArmAj && npAllGe s.ubArmAj s.gArmAj &&
  npAllLe s.lbADtk s.gADtk && npAllGe s.ubADtk s.gADtk &&
  npAllLe s.lbArmEk s.gArmEk && npAllGe s.ubArmEk s.gArmEk &&
  npAllLe s.lbFDtj s.gFDtj && npAllGe s.ubFDtj s.gFDtj &&
  npAllLe s.lbQddsj s.gQddsj && npAllGe s.ubQddsj s.gQddsj

/-- Propositional form of np.all(lb <= g), used to state what passing
the checks guarantees. -/
def npAllLeP (lb g : List ℚ) : Prop := ∀ p ∈ lb.zip g, p.1 ≤ p.2

/-- Propositional form of np.all(ub >= g). -/
def npAllGeP (ub g : List ℚ) : Prop := ∀ p ∈ ub.zip g, p.2 ≤ p.1

/-! ### src/main.py, analysis-phase sanity checks (lines 1215-1218,
    1353-1358, 1504-1507, 1736-1739)

    After loading the solution the analysis prints a warning when
    stats[success] is not True, then runs, in order: the arm
    torque-balance assert np.all(np.abs(armT) < 10**(-tol)), the MTP
    torque-balance assert (only with withMTP), the Hill-equilibrium
    assert (guarded by stats[success] == True; the source threshold is
    10**(tol) as written on line 1506), and the cost-decomposition
    assert (also guarded by stats[success] == True). -/

structure AnalysisState where
  success : Bool
  withMTP : Bool
  tol : ℕ
  armT : List ℚ
  mtpT : List ℚ
  hillEqResiduals : List ℚ
  JAll : ℚ
  objLast : ℚ

def armTBalanceOk (s : AnalysisState) : Bool :=
  s.armT.all (fun x => decide (|x| < 1 / 10 ^ s.tol))

def mtpTBalanceOk (s : AnalysisState) : Bool :=
  s.mtpT.all (fun x => decide (|x| < 1 / 10 ^ s.tol))

def hillEquilibriumOk (s : AnalysisState) : Bool :=
  s.hillEqResiduals.all (fun x => decide (|x| ≤ (10 : ℚ) ^ s.tol))

def costDecompositionOk (s : AnalysisState) : Bool :=
  decide (|s.JAll - s.objLast| ≤ 1/1000000)

/-- True exactly when some assert of the analysis phase fires. -/
def analysisAbortsByAssertion (s : AnalysisState) : Bool :=
  !armTBalanceOk s || (s.withMTP && !mtpTBalanceOk s) ||
  (s.success && !hillEquilibriumOk s) || (s.success && !costDecompositionOk s)

/-! ### src/main.py, cost decomposition (lines 1584-1739)

    Eight accumulators start at zero; for k in range(N), for j in
    range(d), each is incremented by
    weight * term * h_opt * B[j+1] / distTraveled with
    h_opt = finalTime / N.  The per-node term values (which the source
    obtains from the biophysical evaluators) are abstract inputs
    term k j.  JAll_opt sums the eight accumulators in source order;
    the assert fires when stats[success] is True and
    |JAll_opt - stats[iterations][obj][-1]| > 1e-6. -/

def costTermAccum (N d : ℕ) (h dist w : ℚ) (B : List ℚ) (term : ℕ → ℕ → ℚ) : ℚ :=
  ((List.range N).map (fun k =>
    ((List.range d).map (fun j => w * term k j * h * B.getD (j+1) 0 / dist)).sum)).sum

def JAll_opt (N d : ℕ) (finalTime dist : ℚ) (B : List ℚ)
    (wMet wAct wArmE wQdd wPass wCtrl : ℚ)
    (metTerm actTerm armETerm qddTerm passTerm aDtTerm fDtTerm armAccTerm :
      ℕ → ℕ → ℚ) : ℚ :=
  costTermAccum N d (finalTime / N) dist wMet B metTerm +
  costTermAccum N d (finalTime / N) dist wAct B actTerm +
  costTermAccum N d (finalTime / N) dist wArmE B armETerm +
  costTermAccum N d (finalTime / N) dist wQdd B qddTerm +
  costTermAccum N d (finalTime / N) dist wPass B passTerm +
  costTermAccum N d (finalTime / N) dist wCtrl B aDtTerm +
  costTermAccum N d (finalTime / N) dist wCtrl B fDtTerm +
  costTermAccum N d (finalTime / N) dist wCtrl B armAccTerm

/-- The cost-decomposition assert: passes (does not abort) when the
solver did not report success, or when the recomputed objective matches
the reported one within 1e-6. -/
def decompositionCheckPasses (success : Bool) (JAll objLast : ℚ) : Bool :=
  if success then decide (|JAll - objLast| ≤ 1/1000000) else true

/-! ### Concrete states used to settle the error-handling claims -/

/-- A synthetic pre-solver state: every family within bounds except the
joint-position guess at mesh points, which is -5 against bounds [0, 1],
with guessType coldStart. -/
def guessDataColdQsOut : GuessBoundsData where
  lbFinalTime := 0
  ubFinalTime := 1
  gFinalTime := 1/2
  lbAk := [0]; gAk := [1/2]; ubAk := [1]
  lbAj := [0]; gAj := [1/2]; ubAj := [1]
  lbFk := [0]; gFk := [1/2]; ubFk := [1]
  lbFj := [0]; gFj := [1/2]; ubFj := [1]
  lbQsk := [0]; gQsk := [-5]; ubQsk := [1]
  lbQsj := [0]; gQsj := [1/2]; ubQsj := [1]
  lbQdsk := [0]; gQdsk := [1/2]; ubQdsk := [1]
  lbQdsj := [0]; gQdsj := [1/2]; ubQdsj := [1]
  lbArmAk := [0]; gArmAk := [1/2]; ubArmAk := [1]
  lbArmAj := [0]; gArmAj := [1/2]; ubArmAj := [1]
  lbADtk := [0]; gADtk := [1/2]; ubADtk := [1]
  lbArmEk := [0]; gArmEk := [1/2]; ubArmEk := [1]
  lbFDtj := [0]; gFDtj := [1/2]; ubFDtj := [1]
  lbQddsj := [0]; gQddsj := [1/2]; ubQddsj := [1]
  guessType := "coldStart"

/-- A hotStart state with every family within bounds. -/
def guessDataHotInBounds : GuessBoundsData where
  lbFinalTime := 0
  ubFinalTime := 1
  gFinalTime := 1/2
  lbAk := [0]; gAk := [1/2]; ubAk := [1]
  lbAj := [0]; gAj := [1/2]; ubAj := [1]
  lbFk := [0]; gFk := [1/2]; ubFk := [1]
  lbFj := [0]; gFj := [1/2]; ubFj := [1]
  lbQsk := [0]; gQsk := [1/2]; ubQsk := [1]
  lbQsj := [0]; gQsj := [1/2]; ubQsj := [1]
  lbQdsk := [0]; gQdsk := [1/2]; ubQdsk := [1]
  lbQdsj := [0]; gQdsj := [1/2]; ubQdsj := [1]
  lbArmAk := [0]; gArmAk := [1/2]; ubArmAk := [1]
  lbArmAj := [0]; gArmAj := [1/2]; ubArmAj := [1]
  lbADtk := [0]; gADtk := [1/2]; ubADtk := [1]
  lbArmEk := [0]; gArmEk := [1/2]; ubArmEk := [1]
  lbFDtj := [0]; gFDtj := [1/2]; ubFDtj := [1]
  lbQddsj := [0]; gQddsj := [1/2]; ubQddsj := [1]
  guessType := "hotStart"

/-- A post-solve state whose solver reported no success and whose arm
torque-balance residual is 1 (far above the tolerance for tol = 4),
everything else clean. -/
def analysisNoConvArmTOut : AnalysisState where
  success := false
  withMTP := true
  tol := 4
  armT := [1]
  mtpT := [0]
  hillEqResiduals := [0]
  JAll := 0
  objLast := 0

/-- A clean post-solve state whose solver reported no success. -/
def analysisNoConvClean : AnalysisState where
  success := false
  withMTP := false
  tol := 4
  armT := [0]
  mtpT := []
  hillEqResiduals := []
  JAll := 0
  objLast := 0

/-! ### Helper lemmas -/

theorem getD_range_map {α : Type} (f : ℕ → α) (n j : ℕ) (hj : j < n) (dflt : α) :
    ((List.range n).map f).getD j dflt = f j := by
  rw [List.getD_eq_getElem?_getD, List.getElem?_map, List.getElem?_range hj]
  rfl

theorem any_true_of_getD {l : List Bool} {i : ℕ} (h : l.getD i false = true) :
    l.any (fun x => x) = true := by
  induction l generalizing i with
  | nil => simp [List.getD] at h
  | cons b t ih =>
    cases i with
    | zero => simp [List.getD_cons_zero] at h; simp [h]
    | succ i =>
      rw [List.getD_cons_succ] at h
      simp [List.any_cons, ih h]

theorem npArgmaxBool_eq {l : List Bool} {i : ℕ}
    (hi : l.getD i false = true)
    (hlt : ∀ j, j < i → l.getD j false = false) :
    npArgmaxBool l = i := by
  induction l generalizing i with
  | nil => simp [List.getD] at hi
  | cons b t ih =>
    cases i with
    | zero =>
      rw [List.getD_cons_zero] at hi
      simp [npArgmaxBool, hi]
    | succ i =>
      have hb : b = false := by
        have := hlt 0 (Nat.succ_pos i)
        rwa [List.getD_cons_zero] at this
      rw [List.getD_cons_succ] at hi
      have ht : t.any (fun x => x) = true := any_true_of_getD hi
      have : npArgmaxBool t = i := by
        refine ih hi ?_
        intro j hj
        have := hlt (j+1) (Nat.succ_lt_succ hj)
        rwa [List.getD_cons_succ] at this
      simp [npArgmaxBool, hb, ht, this]

theorem npArgmaxBool_all_false {l : List Bool}
    (h : ∀ b ∈ l, b = false) : npArgmaxBool l = 0 := by
  cases l with
  | nil => rfl
  | cons b t =>
    have hb : b = false := h b (List.mem_cons_self b t)
    have ht : t.any (fun x => x) = false := by
      apply List.any_eq_false.mpr
      intro x hx
      simp [h x (List.mem_cons_of_mem b hx)]
    simp [npArgmaxBool, hb, ht]

/-- Entries of the speed table: allSpeeds[j] = 0.73 + j / 10 for j < 21. -/
theorem allSpeeds_getD (j : ℕ) (hj : j < 21) :
    quasiRandomGuess.allSpeeds.getD j 0 = 73/100 + (j : ℚ) * (1/10) := by
  rw [quasiRandomGuess.allSpeeds, linspaceQ, getD_range_map _ _ _ hj]
  norm_num

/-- Entries of the elementwise comparison allSpeeds >= v. -/
theorem allSpeeds_cmp_getD (v : ℚ) (j : ℕ) (hj : j < 21) :
    (quasiRandomGuess.allSpeeds.map (fun s => decide (s ≥ v))).getD j false =
      decide (quasiRandomGuess.allSpeeds.getD j 0 ≥ v) := by
  rw [quasiRandomGuess.allSpeeds, linspaceQ, List.map_map,
    getD_range_map _ _ _ hj, getD_range_map _ _ _ hj]
  rfl

/-- Claim C3 and C10 concern the selection index; this characterizes the
result of getGuessFinalTime when the target speed falls in the half-open
bracket (allSpeeds[i], allSpeeds[i+1]]. -/
theorem getGuessFinalTime_bracket (i : ℕ) (hi : i + 1 < 21) (v : ℚ)
    (hlow : quasiRandomGuess.allSpeeds.getD i 0 < v)
    (hhigh : v ≤ quasiRandomGuess.allSpeeds.getD (i+1) 0) :
    quasiRandomGuess.getGuessFinalTime v =
      quasiRandomGuess.allFinalTimes.getD (i+1) 0 := by
  rw [quasiRandomGuess.getGuessFinalTime]
  congr 1
  apply npArgmaxBool_eq
  · rw [allSpeeds_cmp_getD v (i+1) hi]
    simpa [ge_iff_le] using hhigh
  · intro j hj
    have hj21 : j < 21 := lt_trans hj hi
    rw [allSpeeds_cmp_getD v j hj21]
    simp only [decide_eq_false_iff_not, ge_iff_le, not_le]
    have hji : (j : ℚ) ≤ (i : ℚ) := by
      exact_mod_cast Nat.le_of_lt_succ hj
    have hsj : quasiRandomGuess.allSpeeds.getD j 0 ≤
        quasiRandomGuess.allSpeeds.getD i 0 := by
      rw [allSpeeds_getD j hj21, allSpeeds_getD i (lt_trans (Nat.lt_succ_self i) hi)]
      nlinarith
    calc quasiRandomGuess.allSpeeds.getD j 0
        ≤ quasiRandomGuess.allSpeeds.getD i 0 := hsj
      _ < v := hlow

/-- Entries of the final-time table: allFinalTimes[j] = 0.70 - j * 0.0175. -/
theorem allFinalTimes_getD (j : ℕ) (hj : j < 21) :
    quasiRandomGuess.allFinalTimes.getD j 0 = 70/100 - (j : ℚ) * (7/400) := by
  rw [quasiRandomGuess.allFinalTimes, linspaceQ, getD_range_map _ _ _ hj]
  norm_num
  ring

/-! ### Claim C10 -/

/-- C10: for every targetSpeed strictly greater than 2.73 (above the
largest table speed) both guess variants return 0.70, the final time of
the slowest table speed, because np.argmax over the all-False
comparison vector defaults to index 0; the guess generator neither
fails nor extrapolates. -/
theorem C10_out_of_range_speed (v : ℚ) (hv : 273/100 < v) :
    quasiRandomGuess.getGuessFinalTime v = 70/100 ∧
    dataDrivenGuess.getGuessFinalTime v = 70/100 := by
  have hfalse : ∀ b ∈ quasiRandomGuess.allSpeeds.map (fun s => decide (s ≥ v)),
      b = false := by
    intro b hb
    rw [List.mem_map] at hb
    obtain ⟨s, hs, rfl⟩ := hb
    simp only [decide_eq_false_iff_not, ge_iff_le, not_le]
    rw [quasiRandomGuess.allSpeeds, linspaceQ, List.mem_map] at hs
    obtain ⟨idx, hidx, rfl⟩ := hs
    rw [List.mem_range] at hidx
    have hle : (idx : ℚ) ≤ 20 := by exact_mod_cast Nat.le_of_lt_succ hidx
    have : (73/100 : ℚ) + (idx : ℚ) * ((273/100 - 73/100) / ((21 - 1 : ℕ) : ℚ))
        ≤ 273/100 := by
      norm_num
      nlinarith
    linarith
  have h0 := npArgmaxBool_all_false hfalse
  have hq : quasiRandomGuess.getGuessFinalTime v = 70/100 := by
    rw [quasiRandomGuess.getGuessFinalTime, h0, allFinalTimes_getD 0 (by norm_num)]
    norm_num
  exact ⟨hq, hq⟩

/-- Witness for C10 at targetSpeed 3. -/
theorem C10_witness :
    quasiRandomGuess.getGuessFinalTime 3 = 70/100 ∧
    dataDrivenGuess.getGuessFinalTime 3 = 70/100 :=
  C10_out_of_range_speed 3 (by norm_num)

/-! ### Claim C3 -/

/-- C3 (amended): for both guess variants, getGuessFinalTime returns
the table final time at the index of the first table speed that is at
least targetSpeed - a table lookup, not a linear interpolation - so for
a targetSpeed in the half-open bracket between two adjacent table
speeds it returns exactly the final time of the upper neighbour. -/
theorem C3_table_selection (i : ℕ) (hi : i + 1 < 21) (v : ℚ)
    (hlow : quasiRandomGuess.allSpeeds.getD i 0 < v)
    (hhigh : v ≤ quasiRandomGuess.allSpeeds.getD (i+1) 0) :
    quasiRandomGuess.getGuessFinalTime v =
      quasiRandomGuess.allFinalTimes.getD (i+1) 0 ∧
    dataDrivenGuess.getGuessFinalTime v =
      quasiRandomGuess.allFinalTimes.getD (i+1) 0 := by
  have h := getGuessFinalTime_bracket i hi v hlow hhigh
  exact ⟨h, h⟩

/-- Witness for C3 in the bracket (0.83, 0.93] at targetSpeed 0.9. -/
theorem C3_witness :
    quasiRandomGuess.getGuessFinalTime (9/10) =
      quasiRandomGuess.allFinalTimes.getD 2 0 ∧
    dataDrivenGuess.getGuessFinalTime (9/10) =
      quasiRandomGuess.allFinalTimes.getD 2 0 :=
  C3_table_selection 1 (by norm_num) (9/10)
    (by rw [allSpeeds_getD 1 (by norm_num)]; norm_num)
    (by rw [allSpeeds_getD 2 (by norm_num)]; norm_num)

/-- C3 counterexample: at targetSpeed 0.78, strictly between the
adjacent table speeds 0.73 and 0.83, the returned final time is exactly
the table entry 0.6825 of the upper neighbour; it is not strictly
between the two bracketing table final times 0.6825 and 0.70, and it
differs from the linear interpolation between them. -/
theorem C3_counterexample :
    quasiRandomGuess.allSpeeds.getD 0 0 < 39/50 ∧
    (39/50 : ℚ) < quasiRandomGuess.allSpeeds.getD 1 0 ∧
    quasiRandomGuess.getGuessFinalTime (39/50) = 273/400 ∧
    quasiRandomGuess.allFinalTimes.getD 1 0 = 273/400 ∧
    ¬(quasiRandomGuess.allFinalTimes.getD 1 0 <
        quasiRandomGuess.getGuessFinalTime (39/50) ∧
      quasiRandomGuess.getGuessFinalTime (39/50) <
        quasiRandomGuess.allFinalTimes.getD 0 0) ∧
    quasiRandomGuess.getGuessFinalTime (39/50) ≠
      linearInterpTable quasiRandomGuess.allSpeeds
        quasiRandomGuess.allFinalTimes 0 (39/50) := by
  have h0 : quasiRandomGuess.allSpeeds.getD 0 0 = 73/100 := by
    rw [allSpeeds_getD 0 (by norm_num)]; norm_num
  have h1 : quasiRandomGuess.allSpeeds.getD 1 0 = 83/100 := by
    rw [allSpeeds_getD 1 (by norm_num)]; norm_num
  have hf0 : quasiRandomGuess.allFinalTimes.getD 0 0 = 70/100 := by
    rw [allFinalTimes_getD 0 (by norm_num)]; norm_num
  have hf1 : quasiRandomGuess.allFinalTimes.getD 1 0 = 273/400 := by
    rw [allFinalTimes_getD 1 (by norm_num)]; norm_num
  have hval : quasiRandomGuess.getGuessFinalTime (39/50) = 273/400 := by
    rw [getGuessFinalTime_bracket 0 (by norm_num) (39/50)
      (by rw [h0]; norm_num) (by rw [h1]; norm_num), hf1]
  refine ⟨by rw [h0]; norm_num, by rw [h1]; norm_num, hval, hf1, ?_, ?_⟩
  · rw [hval, hf1]
    simp
  · rw [hval, linearInterpTable]
    rw [h0, h1, hf0, hf1]
    norm_num

/-! ### Claim C4 -/

theorem linspaceQ_length (a b : ℚ) (n : ℕ) : (linspaceQ a b n).length = n := by
  simp [linspaceQ]

/-- The unscaled heuristic pelvis_tx guess is the uniform ramp with
step T * v / (N - 1): entry j equals j * (T * v) / (N - 1) for every
mesh point j = 0..N (the appended last point continues the ramp). -/
theorem gPelvisTxList_getD (N : ℕ) (hN : 2 ≤ N) (v T : ℚ) (j : ℕ) (hj : j ≤ N) :
    (quasiRandomGuess.gPelvisTxList N v T).getD j 0 =
      (j : ℚ) * (T * v) / ((N : ℚ) - 1) := by
  have hc1 : ((N - 1 : ℕ) : ℚ) = (N : ℚ) - 1 := by
    rw [Nat.cast_sub (by omega)]
    norm_num
  have hc2 : ((N - 2 : ℕ) : ℚ) = (N : ℚ) - 2 := by
    rw [Nat.cast_sub (by omega)]
    norm_num
  have hNQ : (2 : ℚ) ≤ (N : ℚ) := by exact_mod_cast hN
  have hne : (N : ℚ) - 1 ≠ 0 := by linarith
  rcases Nat.lt_or_ge j N with hlt | hge
  · rw [quasiRandomGuess.gPelvisTxList,
      List.getD_append _ _ _ _ (by rw [linspaceQ_length]; exact hlt),
      linspaceQ, getD_range_map _ _ _ hlt, hc1]
    ring
  · have hjN : j = N := le_antisymm hj hge
    subst hjN
    rw [quasiRandomGuess.gPelvisTxList,
      List.getD_append_right _ _ _ _ (by rw [linspaceQ_length])]
    rw [linspaceQ_length]
    simp only [Nat.sub_self, List.getD_cons_zero]
    rw [linspaceQ, getD_range_map _ _ _ (by omega), getD_range_map _ _ _ (by omega),
      hc1, hc2]
    field_simp
    ring

/-- C4 (amended): in the heuristic position guess over the N+1 mesh
points, every joint is constantly zero except pelvis_tx, a linear ramp
starting at 0 whose increment per mesh interval is
targetSpeed * guessFinalTime / (N - 1) (the source builds the ramp with
np.linspace over N points, not N+1, so the step is the total distance
over N - 1 intervals, not targetSpeed times the mesh step
guessFinalTime / N), and pelvis_ty, constantly 0.9385; each column is
divided by its scale factor. -/
theorem C4_heuristic_position_guess (N : ℕ) (hN : 2 ≤ N) (v T : ℚ)
    (scaling : String → ℚ) :
    (∀ j : ℕ, j ≤ N → (quasiRandomGuess.gPelvisTxList N v T).getD j 0 =
      (j : ℚ) * (T * v) / ((N : ℚ) - 1)) ∧
    (∀ j : ℕ, quasiRandomGuess.getGuessPosition N v T scaling pelvisTx j =
      (quasiRandomGuess.gPelvisTxList N v T).getD j 0 / scaling pelvisTx) ∧
    (∀ j : ℕ, quasiRandomGuess.getGuessPosition N v T scaling pelvisTy j =
      (9385/10000 : ℚ) / scaling pelvisTy) ∧
    (∀ joint : String, joint ≠ pelvisTx → joint ≠ pelvisTy → ∀ j : ℕ,
      quasiRandomGuess.getGuessPosition N v T scaling joint j = 0) := by
  refine ⟨fun j hj => gPelvisTxList_getD N hN v T j hj, ?_, ?_, ?_⟩
  · intro j
    rw [quasiRandomGuess.getGuessPosition, if_pos rfl]
  · intro j
    rw [quasiRandomGuess.getGuessPosition, if_neg (by decide), if_pos rfl]
  · intro joint h1 h2 j
    rw [quasiRandomGuess.getGuessPosition, if_neg h1, if_neg h2, zero_div]

/-- Witness for C4 at N = 3, targetSpeed 1, guessFinalTime 1, unit scaling. -/
theorem C4_witness :
    (∀ j : ℕ, j ≤ 3 → (quasiRandomGuess.gPelvisTxList 3 1 1).getD j 0 =
      (j : ℚ) * (1 * 1) / ((3 : ℚ) - 1)) ∧
    (∀ j : ℕ, quasiRandomGuess.getGuessPosition 3 1 1 (fun _ => 1) pelvisTx j =
      (quasiRandomGuess.gPelvisTxList 3 1 1).getD j 0 / (1 : ℚ)) ∧
    (∀ j : ℕ, quasiRandomGuess.getGuessPosition 3 1 1 (fun _ => 1) pelvisTy j =
      (9385/10000 : ℚ) / (1 : ℚ)) ∧
    (∀ joint : String, joint ≠ pelvisTx → joint ≠ pelvisTy → ∀ j : ℕ,
      quasiRandomGuess.getGuessPosition 3 1 1 (fun _ => 1) joint j = 0) :=
  C4_heuristic_position_guess 3 (by norm_num) 1 1 (fun _ => 1)

/-- C4 counterexample: with N = 3, targetSpeed 2, guessFinalTime 0.6
and unit scaling, the pelvis_tx guess increment per mesh interval is
0.6 (equal to T * v / (N - 1)), while targetSpeed times the mesh time
step guessFinalTime / N would be 0.4. -/
theorem C4_counterexample :
    quasiRandomGuess.getGuessPosition 3 2 (3/5) (fun _ => 1) pelvisTx 1 -
      quasiRandomGuess.getGuessPosition 3 2 (3/5) (fun _ => 1) pelvisTx 0 = 3/5 ∧
    (2 : ℚ) * ((3/5) / 3) = 2/5 ∧
    (3/5 : ℚ) ≠ (2/5 : ℚ) := by
  have h1 := gPelvisTxList_getD 3 (by norm_num) 2 (3/5) 1 (by norm_num)
  have h0 := gPelvisTxList_getD 3 (by norm_num) 2 (3/5) 0 (by norm_num)
  refine ⟨?_, by norm_num, by norm_num⟩
  rw [quasiRandomGuess.getGuessPosition, if_pos rfl,
    quasiRandomGuess.getGuessPosition, if_pos rfl, h1, h0]
  norm_num

/-! ### Claim C7 -/

theorem flatMap_replicate_getD {α β : Type} (l : List β) (g : β → α) (d : ℕ)
    (dflt : α) (k c : ℕ) (hk : k < l.length) (hc : c < d) :
    (l.flatMap (fun b => List.replicate d (g b))).getD (d*k+c) dflt =
      g (l.get ⟨k, hk⟩) := by
  induction l generalizing k with
  | nil => exact absurd hk (Nat.not_lt_zero k)
  | cons b t ih =>
    cases k with
    | zero =>
      simp only [Nat.mul_zero, Nat.zero_add, List.flatMap_cons]
      rw [List.getD_append _ _ _ _ (by rw [List.length_replicate]; exact hc)]
      rw [List.getD_eq_getElem _ _ (by rw [List.length_replicate]; exact hc)]
      simp
    | succ k =>
      rw [List.flatMap_cons,
        List.getD_append_right _ _ _ _ (by rw [List.length_replicate]; nlinarith)]
      have harith : d * (k + 1) + c - (List.replicate d (g b)).length = d * k + c := by
        rw [List.length_replicate]
        ring_nf
        omega
      rw [harith]
      exact ih k (Nat.lt_of_succ_lt_succ hk)

theorem appendColRows_getD {α : Type} (N d : ℕ) (mesh : List α) (dflt : α)
    (k c : ℕ) (hk : k < N) (hc : c < d) :
    (appendColRows N d mesh dflt).getD (d*k+c) dflt = mesh.getD k dflt := by
  rw [appendColRows]
  have hkr : k < (List.range N).length := by simpa using hk
  rw [flatMap_replicate_getD (List.range N) (fun k2 => mesh.getD k2 dflt) d dflt k c hkr hc]
  simp

/-- C7: for every guessed family with collocation values and both guess
variants, row d*k + c of the collocation guess table equals row k of
the mesh-point guess table, for every interval k < N and collocation
index c < d - coarse replication of the mesh guess.  All fourteen
getGuess*Col methods run the same append loop over their mesh table,
kept abstract as a list of rows with at least N rows (the pandas iloc
precondition). -/
theorem C7_collocation_replication {α : Type} (N d : ℕ) (mesh : List α)
    (dflt : α) (k c : ℕ) (hlen : N ≤ mesh.length) (hk : k < N) (hc : c < d) :
    (quasiRandomGuess.getGuessActivationCol N d mesh dflt).getD (d*k+c) dflt = mesh.getD k dflt ∧
    (quasiRandomGuess.getGuessForceCol N d mesh dflt).getD (d*k+c) dflt = mesh.getD k dflt ∧
    (quasiRandomGuess.getGuessForceDerivativeCol N d mesh dflt).getD (d*k+c) dflt = mesh.getD k dflt ∧
    (quasiRandomGuess.getGuessTorqueActuatorActivationCol N d mesh dflt).getD (d*k+c) dflt = mesh.getD k dflt ∧
    (quasiRandomGuess.getGuessPositionCol N d mesh dflt).getD (d*k+c) dflt = mesh.getD k dflt ∧
    (quasiRandomGuess.getGuessVelocityCol N d mesh dflt).getD (d*k+c) dflt = mesh.getD k dflt ∧
    (quasiRandomGuess.getGuessAccelerationCol N d mesh dflt).getD (d*k+c) dflt = mesh.getD k dflt ∧
    (dataDrivenGuess.getGuessActivationCol N d mesh dflt).getD (d*k+c) dflt = mesh.getD k dflt ∧
    (dataDrivenGuess.getGuessForceCol N d mesh dflt).getD (d*k+c) dflt = mesh.getD k dflt ∧
    (dataDrivenGuess.getGuessForceDerivativeCol N d mesh dflt).getD (d*k+c) dflt = mesh.getD k dflt ∧
    (dataDrivenGuess.getGuessTorqueActuatorActivationCol N d mesh dflt).getD (d*k+c) dflt = mesh.getD k dflt ∧
    (dataDrivenGuess.getGuessPositionCol N d mesh dflt).getD (d*k+c) dflt = mesh.getD k dflt ∧
    (dataDrivenGuess.getGuessVelocityCol N d mesh dflt).getD (d*k+c) dflt = mesh.getD k dflt ∧
    (dataDrivenGuess.getGuessAccelerationCol N d mesh dflt).getD (d*k+c) dflt = mesh.getD k dflt := by
  have h := appendColRows_getD N d mesh dflt k c hk hc
  exact ⟨h, h, h, h, h, h, h, h, h, h, h, h, h, h⟩

/-- Witness for C7 with the two-row mesh table [5, 7], N = 2, d = 2,
k = 1, c = 0: collocation row 2 replicates mesh row 1. -/
theorem C7_witness :
    (quasiRandomGuess.getGuessActivationCol 2 2 [(5:ℚ), 7] 0).getD 2 0 = ([(5:ℚ), 7]).getD 1 0 ∧
    (quasiRandomGuess.getGuessForceCol 2 2 [(5:ℚ), 7] 0).getD 2 0 = ([(5:ℚ), 7]).getD 1 0 ∧
    (quasiRandomGuess.getGuessForceDerivativeCol 2 2 [(5:ℚ), 7] 0).getD 2 0 = ([(5:ℚ), 7]).getD 1 0 ∧
    (quasiRandomGuess.getGuessTorqueActuatorActivationCol 2 2 [(5:ℚ), 7] 0).getD 2 0 = ([(5:ℚ), 7]).getD 1 0 ∧
    (quasiRandomGuess.getGuessPositionCol 2 2 [(5:ℚ), 7] 0).getD 2 0 = ([(5:ℚ), 7]).getD 1 0 ∧
    (quasiRandomGuess.getGuessVelocityCol 2 2 [(5:ℚ), 7] 0).getD 2 0 = ([(5:ℚ), 7]).getD 1 0 ∧
    (quasiRandomGuess.getGuessAccelerationCol 2 2 [(5:ℚ), 7] 0).getD 2 0 = ([(5:ℚ), 7]).getD 1 0 ∧
    (dataDrivenGuess.getGuessActivationCol 2 2 [(5:ℚ), 7] 0).getD 2 0 = ([(5:ℚ), 7]).getD 1 0 ∧
    (dataDrivenGuess.getGuessForceCol 2 2 [(5:ℚ), 7] 0).getD 2 0 = ([(5:ℚ), 7]).getD 1 0 ∧
    (dataDrivenGuess.getGuessForceDerivativeCol 2 2 [(5:ℚ), 7] 0).getD 2 0 = ([(5:ℚ), 7]).getD 1 0 ∧
    (dataDrivenGuess.getGuessTorqueActuatorActivationCol 2 2 [(5:ℚ), 7] 0).getD 2 0 = ([(5:ℚ), 7]).getD 1 0 ∧
    (dataDrivenGuess.getGuessPositionCol 2 2 [(5:ℚ), 7] 0).getD 2 0 = ([(5:ℚ), 7]).getD 1 0 ∧
    (dataDrivenGuess.getGuessVelocityCol 2 2 [(5:ℚ), 7] 0).getD 2 0 = ([(5:ℚ), 7]).getD 1 0 ∧
    (dataDrivenGuess.getGuessAccelerationCol 2 2 [(5:ℚ), 7] 0).getD 2 0 = ([(5:ℚ), 7]).getD 1 0 :=
  C7_collocation_replication 2 2 [(5:ℚ), 7] 0 1 0 (by norm_num) (by norm_num) (by norm_num)

/-! ### Claim C1 -/

theorem npAllLe_iff (lb g : List ℚ) : npAllLe lb g = true ↔ npAllLeP lb g := by
  simp [npAllLe, npAllLeP, List.all_eq_true]

theorem npAllGe_iff (ub g : List ℚ) : npAllGe ub g = true ↔ npAllGeP ub g := by
  simp [npAllGe, npAllGeP, List.all_eq_true, ge_iff_le]

/-- C1 (amended): before the solver is invoked every decision-variable
family is checked guess-within-bounds by a fatal assertion, except the
two joint-position families (mesh and collocation points), whose
asserts are skipped when guessType is coldStart.  Hence whenever the
solver is reached every guess value of every other family satisfies
lowerBound <= guessValue <= upperBound, and the joint-position guesses
do too whenever guessType is not coldStart. -/
theorem C1_guess_bounds_checked (s : GuessBoundsData)
    (h : guessWithinBoundsChecks s = true) :
    (s.lbFinalTime ≤ s.gFinalTime ∧ s.gFinalTime ≤ s.ubFinalTime) ∧
    (npAllLeP s.lbAk s.gAk ∧ npAllGeP s.ubAk s.gAk) ∧
    (npAllLeP s.lbAj s.gAj ∧ npAllGeP s.ubAj s.gAj) ∧
    (npAllLeP s.lbFk s.gFk ∧ npAllGeP s.ubFk s.gFk) ∧
    (npAllLeP s.lbFj s.gFj ∧ npAllGeP s.ubFj s.gFj) ∧
    (npAllLeP s.lbQdsk s.gQdsk ∧ npAllGeP s.ubQdsk s.gQdsk) ∧
    (npAllLeP s.lbQdsj s.gQdsj ∧ npAllGeP s.ubQdsj s.gQdsj) ∧
    (npAllLeP s.lbArmAk s.gArmAk ∧ npAllGeP s.ubArmAk s.gArmAk) ∧
    (npAllLeP s.lbArmAj s.gArmAj ∧ npAllGeP s.ubArmAj s.gArmAj) ∧
    (npAllLeP s.lbADtk s.gADtk ∧ npAllGeP s.ubADtk s.gADtk) ∧
    (npAllLeP s.lbArmEk s.gArmEk ∧ npAllGeP s.ubArmEk s.gArmEk) ∧
    (npAllLeP s.lbFDtj s.gFDtj ∧ npAllGeP s.ubFDtj s.gFDtj) ∧
    (npAllLeP s.lbQddsj s.gQddsj ∧ npAllGeP s.ubQddsj s.gQddsj) ∧
    (s.guessType ≠ coldStartName →
      (npAllLeP s.lbQsk s.gQsk ∧ npAllGeP s.ubQsk s.gQsk) ∧
      (npAllLeP s.lbQsj s.gQsj ∧ npAllGeP s.ubQsj s.gQsj)) := by
  simp only [guessWithinBoundsChecks, Bool.and_eq_true, Bool.or_eq_true,
    decide_eq_true_eq, npAllLe_iff, npAllGe_iff, ge_iff_le] at h
  tauto

/-- Witness for C1 at a hotStart state where every family is within
bounds and the checks pass. -/
theorem C1_witness :
    guessWithinBoundsChecks guessDataHotInBounds = true ∧
    ((guessDataHotInBounds.lbFinalTime ≤ guessDataHotInBounds.gFinalTime ∧
      guessDataHotInBounds.gFinalTime ≤ guessDataHotInBounds.ubFinalTime) ∧
    (npAllLeP guessDataHotInBounds.lbAk guessDataHotInBounds.gAk ∧
      npAllGeP guessDataHotInBounds.ubAk guessDataHotInBounds.gAk) ∧
    (npAllLeP guessDataHotInBounds.lbAj guessDataHotInBounds.gAj ∧
      npAllGeP guessDataHotInBounds.ubAj guessDataHotInBounds.gAj) ∧
    (npAllLeP guessDataHotInBounds.lbFk guessDataHotInBounds.gFk ∧
      npAllGeP guessDataHotInBounds.ubFk guessDataHotInBounds.gFk) ∧
    (npAllLeP guessDataHotInBounds.lbFj guessDataHotInBounds.gFj ∧
      npAllGeP guessDataHotInBounds.ubFj guessDataHotInBounds.gFj) ∧
    (npAllLeP guessDataHotInBounds.lbQdsk guessDataHotInBounds.gQdsk ∧
      npAllGeP guessDataHotInBounds.ubQdsk guessDataHotInBounds.gQdsk) ∧
    (npAllLeP guessDataHotInBounds.lbQdsj guessDataHotInBounds.gQdsj ∧
      npAllGeP guessDataHotInBounds.ubQdsj guessDataHotInBounds.gQdsj) ∧
    (npAllLeP guessDataHotInBounds.lbArmAk guessDataHotInBounds.gArmAk ∧
      npAllGeP guessDataHotInBounds.ubArmAk guessDataHotInBounds.gArmAk) ∧
    (npAllLeP guessDataHotInBounds.lbArmAj guessDataHotInBounds.gArmAj ∧
      npAllGeP guessDataHotInBounds.ubArmAj guessDataHotInBounds.gArmAj) ∧
    (npAllLeP guessDataHotInBounds.lbADtk guessDataHotInBounds.gADtk ∧
      npAllGeP guessDataHotInBounds.ubADtk guessDataHotInBounds.gADtk) ∧
    (npAllLeP guessDataHotInBounds.lbArmEk guessDataHotInBounds.gArmEk ∧
      npAllGeP guessDataHotInBounds.ubArmEk guessDataHotInBounds.gArmEk) ∧
    (npAllLeP guessDataHotInBounds.lbFDtj guessDataHotInBounds.gFDtj ∧
      npAllGeP guessDataHotInBounds.ubFDtj guessDataHotInBounds.gFDtj) ∧
    (npAllLeP guessDataHotInBounds.lbQddsj guessDataHotInBounds.gQddsj ∧
      npAllGeP guessDataHotInBounds.ubQddsj guessDataHotInBounds.gQddsj) ∧
    (guessDataHotInBounds.guessType ≠ coldStartName →
      (npAllLeP guessDataHotInBounds.lbQsk guessDataHotInBounds.gQsk ∧
        npAllGeP guessDataHotInBounds.ubQsk guessDataHotInBounds.gQsk) ∧
      (npAllLeP guessDataHotInBounds.lbQsj guessDataHotInBounds.gQsj ∧
        npAllGeP guessDataHotInBounds.ubQsj guessDataHotInBounds.gQsj))) :=
  ⟨by norm_num [guessWithinBoundsChecks, npAllLe, npAllGe, guessDataHotInBounds,
      coldStartName],
   C1_guess_bounds_checked guessDataHotInBounds
     (by norm_num [guessWithinBoundsChecks, npAllLe, npAllGe, guessDataHotInBounds,
       coldStartName])⟩

/-- C1 counterexample: with guessType coldStart a joint-position guess
of -5 against bounds [0, 1] passes every assert that runs, so the
solver is reached although a position guess value lies outside its
declared bounds - the claim fails for the joint-position families under
coldStart. -/
theorem C1_counterexample :
    guessDataColdQsOut.guessType = coldStartName ∧
    ¬ npAllLeP guessDataColdQsOut.lbQsk guessDataColdQsOut.gQsk ∧
    guessWithinBoundsChecks guessDataColdQsOut = true := by
  refine ⟨rfl, ?_, ?_⟩
  · intro hP
    have h := hP (0, -5) (by simp [guessDataColdQsOut])
    norm_num at h
  · norm_num [guessWithinBoundsChecks, npAllLe, npAllGe, guessDataColdQsOut,
      coldStartName]

/-! ### Claim C2 -/

/-- C2 (amended): when the solver statistics do not report success the
analysis prints a warning and the Hill-equilibrium and
cost-decomposition asserts are disabled (they cannot abort), but the
arm torque-balance assert - and, with MTP joints, the MTP
torque-balance assert - still run unconditionally: the analysis phase
aborts exactly when one of those two torque balances fails. -/
theorem C2_nonconvergence_checks (s : AnalysisState) (h : s.success = false) :
    analysisAbortsByAssertion s = false ↔
      (armTBalanceOk s = true ∧ (s.withMTP = true → mtpTBalanceOk s = true)) := by
  simp only [analysisAbortsByAssertion, h, Bool.false_and]
  cases harm : armTBalanceOk s <;> cases hw : s.withMTP <;>
    cases hm : mtpTBalanceOk s <;> simp

/-- Witness for C2 at a clean non-converged state. -/
theorem C2_witness :
    analysisAbortsByAssertion analysisNoConvClean = false ↔
      (armTBalanceOk analysisNoConvClean = true ∧
        (analysisNoConvClean.withMTP = true →
          mtpTBalanceOk analysisNoConvClean = true)) :=
  C2_nonconvergence_checks analysisNoConvClean rfl

/-- C2 counterexample: a state whose solver reported no success but
whose arm torque-balance residual is 1 makes the analysis abort by
assertion - the arm torque-balance check is not disabled by the
convergence warning. -/
theorem C2_counterexample :
    analysisNoConvArmTOut.success = false ∧
    armTBalanceOk analysisNoConvArmTOut = false ∧
    analysisAbortsByAssertion analysisNoConvArmTOut = true := by
  have harm : armTBalanceOk analysisNoConvArmTOut = false := by
    norm_num [armTBalanceOk, analysisNoConvArmTOut]
  refine ⟨rfl, harm, ?_⟩
  rw [analysisAbortsByAssertion, harm]
  rfl

/-! ### Claim C9 -/

theorem listSum_range_map (n : ℕ) (f : ℕ → ℚ) :
    ((List.range n).map f).sum = ∑ i in Finset.range n, f i := by
  induction n with
  | zero => simp
  | succ n ih =>
    rw [List.range_succ, List.map_append, List.sum_append, Finset.sum_range_succ, ih]
    simp

theorem costTermAccum_eq_sum (N d : ℕ) (h dist w : ℚ) (B : List ℚ)
    (term : ℕ → ℕ → ℚ) :
    costTermAccum N d h dist w B term =
      ∑ k in Finset.range N, ∑ j in Finset.range d,
        w * term k j * h * B.getD (j+1) 0 / dist := by
  rw [costTermAccum, listSum_range_map]
  refine Finset.sum_congr rfl fun k _ => ?_
  rw [listSum_range_map]

/-- C9: when the solver reports success, the analysis re-derives the
eight objective terms from the raw solution, each accumulated over all
N intervals and d collocation points with quadrature weight B[j+1],
time step finalTime/N, its configured weight and division by the
distance traveled, and the cost-decomposition assert lets the run
continue exactly when the sum of the eight accumulated terms differs
from the solver-reported final objective by at most 1e-6. -/
theorem C9_cost_decomposition (N d : ℕ) (finalTime dist : ℚ) (B : List ℚ)
    (wMet wAct wArmE wQdd wPass wCtrl : ℚ)
    (metTerm actTerm armETerm qddTerm passTerm aDtTerm fDtTerm armAccTerm :
      ℕ → ℕ → ℚ)
    (success : Bool) (objLast : ℚ) (hs : success = true) :
    decompositionCheckPasses success
        (JAll_opt N d finalTime dist B wMet wAct wArmE wQdd wPass wCtrl
          metTerm actTerm armETerm qddTerm passTerm aDtTerm fDtTerm armAccTerm)
        objLast = true ↔
      |(∑ k in Finset.range N, ∑ j in Finset.range d,
          (wMet * metTerm k j + wAct * actTerm k j + wArmE * armETerm k j +
           wQdd * qddTerm k j + wPass * passTerm k j + wCtrl * aDtTerm k j +
           wCtrl * fDtTerm k j + wCtrl * armAccTerm k j) *
          (finalTime / (N : ℚ)) * B.getD (j+1) 0 / dist) - objLast| ≤
        1/1000000 := by
  subst hs
  have hJ : JAll_opt N d finalTime dist B wMet wAct wArmE wQdd wPass wCtrl
      metTerm actTerm armETerm qddTerm passTerm aDtTerm fDtTerm armAccTerm =
      ∑ k in Finset.range N, ∑ j in Finset.range d,
        (wMet * metTerm k j + wAct * actTerm k j + wArmE * armETerm k j +
         wQdd * qddTerm k j + wPass * passTerm k j + wCtrl * aDtTerm k j +
         wCtrl * fDtTerm k j + wCtrl * armAccTerm k j) *
        (finalTime / (N : ℚ)) * B.getD (j+1) 0 / dist := by
    rw [JAll_opt, costTermAccum_eq_sum, costTermAccum_eq_sum,
      costTermAccum_eq_sum, costTermAccum_eq_sum, costTermAccum_eq_sum,
      costTermAccum_eq_sum, costTermAccum_eq_sum, costTermAccum_eq_sum,
      ← Finset.sum_add_distrib, ← Finset.sum_add_distrib,
      ← Finset.sum_add_distrib, ← Finset.sum_add_distrib,
      ← Finset.sum_add_distrib, ← Finset.sum_add_distrib,
      ← Finset.sum_add_distrib]
    refine Finset.sum_congr rfl fun k _ => ?_
    rw [← Finset.sum_add_distrib, ← Finset.sum_add_distrib,
      ← Finset.sum_add_distrib, ← Finset.sum_add_distrib,
      ← Finset.sum_add_distrib, ← Finset.sum_add_distrib,
      ← Finset.sum_add_distrib]
    refine Finset.sum_congr rfl fun j _ => ?_
    ring
  rw [decompositionCheckPasses, if_pos rfl, decide_eq_true_eq, hJ]

/-- Witness for C9 at N = d = 1, B = [0, 1], unit weights, zero terms,
a successful solve and reported objective 0. -/
theorem C9_witness :
    decompositionCheckPasses true
        (JAll_opt 1 1 1 1 [0, 1] 1 1 1 1 1 1
          (fun _ _ => 0) (fun _ _ => 0) (fun _ _ => 0) (fun _ _ => 0)
          (fun _ _ => 0) (fun _ _ => 0) (fun _ _ => 0) (fun _ _ => 0))
        0 = true ↔
      |(∑ k in Finset.range 1, ∑ j in Finset.range 1,
          ((1:ℚ) * 0 + 1 * 0 + 1 * 0 + 1 * 0 + 1 * 0 + 1 * 0 + 1 * 0 + 1 * 0) *
          ((1:ℚ) / ((1:ℕ) : ℚ)) * ([(0:ℚ), 1]).getD (j+1) 0 / 1) - 0| ≤
        1/1000000 :=
  C9_cost_decomposition 1 1 1 1 [0, 1] 1 1 1 1 1 1
    (fun _ _ => 0) (fun _ _ => 0) (fun _ _ => 0) (fun _ _ => 0)
    (fun _ _ => 0) (fun _ _ => 0) (fun _ _ => 0) (fun _ _ => 0)
    true 0 rfl

/-! ### Claim C8 -/

/-- C8: after gait-cycle reconstruction the forward-translation
coordinate of the reconstructed cycle at sample 0 equals exactly zero,
because the whole pelvis_tx row is shifted by its own sample-0 value as
the last reconstruction step; the subsequent radian-to-degree
conversion does not touch pelvis_tx since it is not a rotational
joint. -/
theorem C8_pelvis_tx_zeroed (Q : ℕ → ℕ → ℚ) (N i : ℕ) (legICLeft : Bool) :
    mainModel.Qs_GC Q N i legICLeft mainModel.txIdx 0 = 0 ∧
    mainModel.idxRotJoints.contains mainModel.txIdx = false := by
  constructor
  · rw [mainModel.Qs_GC, if_pos rfl]
    ring
  · decide

/-! ### Claim C5 -/

/-- The sequence of masked numpy assignments building the 2N-sample
table equals the direct three-segment description of the claim, column
by column, before the left-leg adjustment. -/
theorem qsGC_segments_eq (Q : ℕ → ℕ → ℚ) (N i : ℕ) (h1 : 1 ≤ i) (h2 : i ≤ N)
    (j t : ℕ) (ht : t < 2*N) :
    mainModel.qsGC_seg3Tx Q N i j t = mainModel.qsGC_claimSegments Q N i j t := by
  rw [mainModel.qsGC_seg3Tx, mainModel.qsGC_seg3, mainModel.qsGC_seg2Tx,
    mainModel.qsGC_seg2Opp, mainModel.qsGC_seg2A, mainModel.qsGC_seg1,
    mainModel.qsGC_claimSegments]
  rcases Nat.lt_or_ge t (N - i) with hA | hA
  · conv_rhs => rw [if_pos hA]
    conv_lhs => rw [if_neg (fun hc => absurd hc.1.1 (by omega : ¬ 2*N - i ≤ t)),
      if_neg (fun hc => absurd hc.1 (by omega : ¬ 2*N - i ≤ t)),
      if_neg (fun hc => absurd hc.1.1 (by omega : ¬ N - i ≤ t)),
      if_neg (fun hc => absurd hc.1.1 (by omega : ¬ N - i ≤ t)),
      if_neg (fun hc => absurd hc.1.1 (by omega : ¬ N - i ≤ t)),
      if_pos hA]
  · rcases Nat.lt_or_ge t (2*N - i) with hB | hB
    · conv_rhs => rw [if_neg (show ¬ t < N - i by omega), if_pos hB]
      conv_lhs => rw [if_neg (fun hc => absurd hc.1.1 (by omega : ¬ 2*N - i ≤ t)),
        if_neg (fun hc => absurd hc.1 (by omega : ¬ 2*N - i ≤ t))]
      by_cases hj : j = mainModel.txIdx
      · rw [if_pos (show ((N - i ≤ t ∧ t < 2*N - i) ∧ j = mainModel.txIdx) from
          ⟨⟨hA, hB⟩, hj⟩), if_pos hj]
      · rw [if_neg (fun hc => hj hc.2), if_neg hj]
        by_cases hopp : mainModel.idxPerOppJoints.contains j = true
        · rw [if_pos (show ((N - i ≤ t ∧ t < 2*N - i) ∧
            mainModel.idxPerOppJoints.contains j = true) from ⟨⟨hA, hB⟩, hopp⟩),
            if_pos hopp]
        · rw [if_neg (fun hc => hopp hc.2), if_neg hopp]
          by_cases hmA : mainModel.idxPerQsJointsA.contains j = true
          · rw [if_pos (show ((N - i ≤ t ∧ t < 2*N - i) ∧
              mainModel.idxPerQsJointsA.contains j = true) from ⟨⟨hA, hB⟩, hmA⟩),
              if_pos hmA]
          · rw [if_neg (fun hc => hmA hc.2), if_neg hmA,
              if_neg (show ¬ t < N - i by omega)]
    · conv_rhs => rw [if_neg (show ¬ t < N - i by omega),
        if_neg (show ¬ t < 2*N - i by omega)]
      by_cases hj : j = mainModel.txIdx
      · conv_lhs => rw [if_pos (show ((2*N - i ≤ t ∧ t < 2*N) ∧
          j = mainModel.txIdx) from ⟨⟨hB, ht⟩, hj⟩)]
        conv_rhs => rw [if_pos hj]
      · conv_lhs => rw [if_neg (fun hc => hj hc.2),
          if_pos (show (2*N - i ≤ t ∧ t < 2*N) from ⟨hB, ht⟩)]
        conv_rhs => rw [if_neg hj]

/-- C5: for a detected heel-strike index i with 1 <= i <= N, the
reconstructed joint-position cycle over its 2N samples is exactly the
concatenation of the three claimed segments of the half-cycle solution
- samples i..N-1 unchanged, then the first N samples with the A-to-B
permutation applied, opposite joints negated and pelvis_tx offset by
the final-sample value, then samples 0..i-1 with pelvis_tx offset by
twice the final-sample value - with the permutation and negation
applied once more to the whole cycle when the left leg initiates
contact. -/
theorem C5_gait_cycle_reconstruction (Q : ℕ → ℕ → ℚ) (N i : ℕ)
    (legICLeft : Bool) (h1 : 1 ≤ i) (h2 : i ≤ N) (j t : ℕ) (ht : t < 2*N) :
    mainModel.qsGC_legAdjusted Q N i legICLeft j t =
      mainModel.qsGC_claim Q N i legICLeft j t := by
  have hbase : ∀ j' : ℕ, mainModel.qsGC_seg3Tx Q N i j' t =
      mainModel.qsGC_claimSegments Q N i j' t :=
    fun j' => qsGC_segments_eq Q N i h1 h2 j' t ht
  rw [mainModel.qsGC_legAdjusted, mainModel.qsGC_claim]
  cases legICLeft with
  | false =>
    rw [if_neg (by simp), if_neg (by simp)]
    exact hbase j
  | true =>
    rw [if_pos rfl, if_pos rfl]
    dsimp only
    by_cases hopp : mainModel.idxPerOppJoints.contains j = true
    · rw [if_pos hopp, if_pos hopp]
      by_cases hmA : mainModel.idxPerQsJointsA.contains j = true
      · rw [if_pos hmA, if_pos hmA, hbase]
      · rw [if_neg hmA, if_neg hmA, hbase]
    · rw [if_neg hopp, if_neg hopp]
      by_cases hmA : mainModel.idxPerQsJointsA.contains j = true
      · rw [if_pos hmA, if_pos hmA, hbase]
      · rw [if_neg hmA, if_neg hmA, hbase]

/-- Witness for C5 at a concrete half-cycle solution, N = 2, heel
strike at i = 1, left leg initiating contact, joint row 1, sample 0. -/
theorem C5_witness :
    mainModel.qsGC_legAdjusted (fun j t => (j : ℚ) + t) 2 1 true 1 0 =
      mainModel.qsGC_claim (fun j t => (j : ℚ) + t) 2 1 true 1 0 :=
  C5_gait_cycle_reconstruction (fun j t => (j : ℚ) + t) 2 1 true
    (by norm_num) (by norm_num) 1 0 (by norm_num)

/-! ### Claim C6 -/

theorem ddgp_base (N : ℕ) (perQsA perOpp : List String) (base : String → ℕ → ℚ)
    (joint : String) (k : ℕ) (hj : joint ≠ pelvisTx) (hk : k ≠ N) :
    dataDrivenGuess.getGuessPosition N perQsA perOpp base joint k = base joint k := by
  simp only [dataDrivenGuess.getGuessPosition]
  rw [if_neg hj, if_neg hk]

theorem ddgp_rowN (N : ℕ) (perQsA perOpp : List String) (base : String → ℕ → ℚ)
    (joint : String) (hj : joint ≠ pelvisTx) :
    dataDrivenGuess.getGuessPosition N perQsA perOpp base joint N =
      dataDrivenGuess.periodicRowN perQsA perOpp base joint := by
  simp only [dataDrivenGuess.getGuessPosition, eq_self_iff_true, if_true]
  rw [if_neg hj, if_neg hj]

theorem ddgp_tx (N : ℕ) (perQsA perOpp : List String) (base : String → ℕ → ℚ)
    (k : ℕ) (hk : k ≠ N) (hN0 : N ≠ 0) :
    dataDrivenGuess.getGuessPosition N perQsA perOpp base pelvisTx k =
      base pelvisTx k - base pelvisTx 0 := by
  simp only [dataDrivenGuess.getGuessPosition, eq_self_iff_true, if_true]
  rw [if_neg hk, if_neg (show ¬ (0 : ℕ) = N from fun h => hN0 h.symm)]

theorem ddgp_tx_rowN (N : ℕ) (perQsA perOpp : List String)
    (base : String → ℕ → ℚ) (hN0 : N ≠ 0) :
    dataDrivenGuess.getGuessPosition N perQsA perOpp base pelvisTx N =
      (base pelvisTx (N-1) + (base pelvisTx (N-1) - base pelvisTx (N-2))) -
        base pelvisTx 0 := by
  simp only [dataDrivenGuess.getGuessPosition, eq_self_iff_true, if_true]
  rw [if_neg (show ¬ (0 : ℕ) = N from fun h => hN0 h.symm)]

theorem ddgp_rowN_r (N : ℕ) (perQsA perOpp : List String)
    (base : String → ℕ → ℚ) (joint : String)
    (hmem : perQsA.contains joint = true) (hr : pyLastTwo joint = ['_', 'r'])
    (hjtx : joint ≠ pelvisTx)
    (hmtx : String.mk (pyDropLast joint ++ ['l']) ≠ pelvisTx) (hN0 : N ≠ 0) :
    dataDrivenGuess.getGuessPosition N perQsA perOpp base joint N =
      dataDrivenGuess.getGuessPosition N perQsA perOpp base
        (String.mk (pyDropLast joint ++ ['l'])) 0 := by
  rw [ddgp_rowN N perQsA perOpp base joint hjtx,
    ddgp_base N perQsA perOpp base _ 0 hmtx (fun h => hN0 h.symm),
    dataDrivenGuess.periodicRowN, if_pos hmem, if_pos hr]

theorem ddgp_rowN_l (N : ℕ) (perQsA perOpp : List String)
    (base : String → ℕ → ℚ) (joint : String)
    (hmem : perQsA.contains joint = true)
    (hnr : ¬ pyLastTwo joint = ['_', 'r']) (hl : pyLastTwo joint = ['_', 'l'])
    (hjtx : joint ≠ pelvisTx)
    (hmtx : String.mk (pyDropLast joint ++ ['r']) ≠ pelvisTx) (hN0 : N ≠ 0) :
    dataDrivenGuess.getGuessPosition N perQsA perOpp base joint N =
      dataDrivenGuess.getGuessPosition N perQsA perOpp base
        (String.mk (pyDropLast joint ++ ['r'])) 0 := by
  rw [ddgp_rowN N perQsA perOpp base joint hjtx,
    ddgp_base N perQsA perOpp base _ 0 hmtx (fun h => hN0 h.symm),
    dataDrivenGuess.periodicRowN, if_pos hmem, if_neg hnr, if_pos hl]

theorem ddgp_rowN_none (N : ℕ) (perQsA perOpp : List String)
    (base : String → ℕ → ℚ) (joint : String)
    (hmem : perQsA.contains joint = true)
    (hnr : ¬ pyLastTwo joint = ['_', 'r']) (hnl : ¬ pyLastTwo joint = ['_', 'l'])
    (hjtx : joint ≠ pelvisTx) (hN0 : N ≠ 0) :
    dataDrivenGuess.getGuessPosition N perQsA perOpp base joint N =
      dataDrivenGuess.getGuessPosition N perQsA perOpp base joint 0 := by
  rw [ddgp_rowN N perQsA perOpp base joint hjtx,
    ddgp_base N perQsA perOpp base joint 0 hjtx (fun h => hN0 h.symm),
    dataDrivenGuess.periodicRowN, if_pos hmem, if_neg hnr, if_neg hnl]

theorem ddgp_rowN_opp (N : ℕ) (perQsA perOpp : List String)
    (base : String → ℕ → ℚ) (joint : String)
    (hmemA : perQsA.contains joint = false)
    (hmemO : perOpp.contains joint = true)
    (hjtx : joint ≠ pelvisTx) (hN0 : N ≠ 0) :
    dataDrivenGuess.getGuessPosition N perQsA perOpp base joint N =
      -(dataDrivenGuess.getGuessPosition N perQsA perOpp base joint 0) := by
  rw [ddgp_rowN N perQsA perOpp base joint hjtx,
    ddgp_base N perQsA perOpp base joint 0 hjtx (fun h => hN0 h.symm),
    dataDrivenGuess.periodicRowN,
    if_neg (show ¬ (perQsA.contains joint = true) by rw [hmemA]; decide),
    if_pos hmemO]

/-- C6: in dataDrivenGuess.getGuessPosition, instantiated with the
model joint configuration of src/main.py, the appended final mesh node
N satisfies: every joint of periodicQsJointsA whose name ends in _r
(resp. _l) takes the node-0 value of the name with the trailing r
(resp. l) flipped; a suffix-less joint of that set takes its own node-0
value; every joint of periodicOppositeJoints takes the negated node-0
value; and pelvis_tx at node N equals its node N-1 value plus the
difference of its node N-1 and N-2 values (the relations hold for the
returned table, after the whole pelvis_tx column is shifted by its
node-0 value, since that shift preserves them). -/
theorem C6_data_driven_last_node (base : String → ℕ → ℚ) (N : ℕ) (hN : 2 ≤ N) :
    (∀ joint ∈ mainModel.periodicQsJointsA,
      (pyLastTwo joint = ['_', 'r'] →
        dataDrivenGuess.getGuessPosition N mainModel.periodicQsJointsA
          mainModel.periodicOppositeJoints base joint N =
        dataDrivenGuess.getGuessPosition N mainModel.periodicQsJointsA
          mainModel.periodicOppositeJoints base
          (String.mk (pyDropLast joint ++ ['l'])) 0) ∧
      (pyLastTwo joint = ['_', 'l'] →
        dataDrivenGuess.getGuessPosition N mainModel.periodicQsJointsA
          mainModel.periodicOppositeJoints base joint N =
        dataDrivenGuess.getGuessPosition N mainModel.periodicQsJointsA
          mainModel.periodicOppositeJoints base
          (String.mk (pyDropLast joint ++ ['r'])) 0) ∧
      (¬ pyLastTwo joint = ['_', 'r'] → ¬ pyLastTwo joint = ['_', 'l'] →
        dataDrivenGuess.getGuessPosition N mainModel.periodicQsJointsA
          mainModel.periodicOppositeJoints base joint N =
        dataDrivenGuess.getGuessPosition N mainModel.periodicQsJointsA
          mainModel.periodicOppositeJoints base joint 0)) ∧
    (∀ joint ∈ mainModel.periodicOppositeJoints,
      dataDrivenGuess.getGuessPosition N mainModel.periodicQsJointsA
        mainModel.periodicOppositeJoints base joint N =
      -(dataDrivenGuess.getGuessPosition N mainModel.periodicQsJointsA
        mainModel.periodicOppositeJoints base joint 0)) ∧
    dataDrivenGuess.getGuessPosition N mainModel.periodicQsJointsA
      mainModel.periodicOppositeJoints base pelvisTx N =
    dataDrivenGuess.getGuessPosition N mainModel.periodicQsJointsA
      mainModel.periodicOppositeJoints base pelvisTx (N-1) +
    (dataDrivenGuess.getGuessPosition N mainModel.periodicQsJointsA
      mainModel.periodicOppositeJoints base pelvisTx (N-1) -
     dataDrivenGuess.getGuessPosition N mainModel.periodicQsJointsA
      mainModel.periodicOppositeJoints base pelvisTx (N-2)) := by
  have hN0 : N ≠ 0 := by omega
  refine ⟨?_, ?_, ?_⟩
  · intro joint hj
    simp only [mainModel.periodicQsJointsA] at hj
    fin_cases hj <;>
      refine ⟨fun hc => ?_, fun hc => ?_, fun hc1 hc2 => ?_⟩ <;>
      first
        | exact absurd hc (by decide)
        | exact absurd (by decide) hc1
        | exact absurd (by decide) hc2
        | exact ddgp_rowN_r N mainModel.periodicQsJointsA
            mainModel.periodicOppositeJoints base _ (by decide) hc
            (by decide) (by decide) hN0
        | exact ddgp_rowN_l N mainModel.periodicQsJointsA
            mainModel.periodicOppositeJoints base _ (by decide) (by decide) hc
            (by decide) (by decide) hN0
        | exact ddgp_rowN_none N mainModel.periodicQsJointsA
            mainModel.periodicOppositeJoints base _ (by decide) hc1 hc2
            (by decide) hN0
  · intro joint hj
    simp only [mainModel.periodicOppositeJoints] at hj
    fin_cases hj <;>
      exact ddgp_rowN_opp N mainModel.periodicQsJointsA
        mainModel.periodicOppositeJoints base _ (by decide) (by decide)
        (by decide) hN0
  · rw [ddgp_tx_rowN N mainModel.periodicQsJointsA
        mainModel.periodicOppositeJoints base hN0,
      ddgp_tx N mainModel.periodicQsJointsA mainModel.periodicOppositeJoints
        base (N-1) (by omega) hN0,
      ddgp_tx N mainModel.periodicQsJointsA mainModel.periodicOppositeJoints
        base (N-2) (by omega) hN0]
    ring

/-- Witness for C6 at N = 2 with the concrete spline table
base joint k = k. -/
theorem C6_witness :
    (∀ joint ∈ mainModel.periodicQsJointsA,
      (pyLastTwo joint = ['_', 'r'] →
        dataDrivenGuess.getGuessPosition 2 mainModel.periodicQsJointsA
          mainModel.periodicOppositeJoints (fun _ k => (k : ℚ)) joint 2 =
        dataDrivenGuess.getGuessPosition 2 mainModel.periodicQsJointsA
          mainModel.periodicOppositeJoints (fun _ k => (k : ℚ))
          (String.mk (pyDropLast joint ++ ['l'])) 0) ∧
      (pyLastTwo joint = ['_', 'l'] →
        dataDrivenGuess.getGuessPosition 2 mainModel.periodicQsJointsA
          mainModel.periodicOppositeJoints (fun _ k => (k : ℚ)) joint 2 =
        dataDrivenGuess.getGuessPosition 2 mainModel.periodicQsJointsA
          mainModel.periodicOppositeJoints (fun _ k => (k : ℚ))
          (String.mk (pyDropLast joint ++ ['r'])) 0) ∧
      (¬ pyLastTwo joint = ['_', 'r'] → ¬ pyLastTwo joint = ['_', 'l'] →
        dataDrivenGuess.getGuessPosition 2 mainModel.periodicQsJointsA
          mainModel.periodicOppositeJoints (fun _ k => (k : ℚ)) joint 2 =
        dataDrivenGuess.getGuessPosition 2 mainModel.periodicQsJointsA
          mainModel.periodicOppositeJoints (fun _ k => (k : ℚ)) joint 0)) ∧
    (∀ joint ∈ mainModel.periodicOppositeJoints,
      dataDrivenGuess.getGuessPosition 2 mainModel.periodicQsJointsA
        mainModel.periodicOppositeJoints (fun _ k => (k : ℚ)) joint 2 =
      -(dataDrivenGuess.getGuessPosition 2 mainModel.periodicQsJointsA
        mainModel.periodicOppositeJoints (fun _ k => (k : ℚ)) joint 0)) ∧
    dataDrivenGuess.getGuessPosition 2 mainModel.periodicQsJointsA
      mainModel.periodicOppositeJoints (fun _ k => (k : ℚ)) pelvisTx 2 =
    dataDrivenGuess.getGuessPosition 2 mainModel.periodicQsJointsA
      mainModel.periodicOppositeJoints (fun _ k => (k : ℚ)) pelvisTx (2-1) +
    (dataDrivenGuess.getGuessPosition 2 mainModel.periodicQsJointsA
      mainModel.periodicOppositeJoints (fun _ k => (k : ℚ)) pelvisTx (2-1) -
     dataDrivenGuess.getGuessPosition 2 mainModel.periodicQsJointsA
      mainModel.periodicOppositeJoints (fun _ k => (k : ℚ)) pelvisTx (2-2)) :=
  C6_data_driven_last_node (fun _ k => (k : ℚ)) 2 (by norm_num)
